import Mathlib

/-!
Verification development for the screenshot acquisition and lifecycle
subsystem (`ScreenshotHelper.ts` of interview-coder-withoupaywall-opensource).

The TypeScript class is shallowly embedded as pure Lean functions over an
explicit state:

* the two bounded queues (`screenshotQueue`, `extraScreenshotQueue`) become
  `List String`;
* the current view becomes an inductive `View`;
* the filesystem becomes the list of currently existing file paths (`files`);
  `fs.promises.writeFile` adds a path, `fs.unlinkSync` / `fs.promises.unlink`
  remove it, `fs.existsSync` is membership;
* fallible external effects (the capture primitive, file writes) become
  explicit outcome parameters, so every run of the TypeScript method
  corresponds to one evaluation of the Lean function at some choice of
  outcomes.

Buffers (`Buffer`) are byte lists (`List Nat`).
-/

set_option autoImplicit false

namespace Screenshot

/-- The three views of `ScreenshotHelper.view`
(`"queue" | "solutions" | "debug"`). -/
inductive View where
  | queue
  | solutions
  | debug
deriving DecidableEq, Repr

/-- The capacity bound `MAX_SCREENSHOTS = 5` (ScreenshotHelper.ts line 17). -/
def MAX_SCREENSHOTS : Nat := 5

/-- The primary artifact directory (`<userData>/screenshots`); only the
relative tail matters for the model. -/
def screenshotDir : String := "screenshots"

/-- The secondary artifact directory (`<userData>/extra_screenshots`). -/
def extraScreenshotDir : String := "extra_screenshots"

/-- The value `path.join dir (name ++ ".png")` for the primary directory: the path
`takeScreenshot` writes to in `queue` view (line 425). `name` stands for the
generated uuid. -/
def mainPathOf (name : String) : String :=
  screenshotDir ++ "/" ++ name ++ ".png"

/-- The path `takeScreenshot` writes to in `solutions`/`debug` view
(line 449). -/
def extraPathOf (name : String) : String :=
  extraScreenshotDir ++ "/" ++ name ++ ".png"

/-- State of a `ScreenshotHelper` instance together with the filesystem. -/
structure HelperState where
  screenshotQueue : List String
  extraScreenshotQueue : List String
  view : View
  files : List String
deriving DecidableEq, Repr

/-- Model of `fs.promises.writeFile p buffer`: afterwards the path exists; writing to
an existing path overwrites it (the set of existing paths is unchanged). -/
def fsWrite (files : List String) (p : String) : List String :=
  if p ∈ files then files else files ++ [p]

/-- Model of `fs.unlink p`: the path no longer exists afterwards. -/
def fsUnlink (files : List String) (p : String) : List String :=
  files.erase p

/-- The 8-byte PNG signature `[0x89, 0x50, 0x4e, 0x47, 0x0d, 0x0a, 0x1a, 0x0a]`
(line 206). -/
def pngSignature : List Nat := [0x89, 0x50, 0x4e, 0x47, 0x0d, 0x0a, 0x1a, 0x0a]

/-- The validator `isValidPng` (lines 204-209): reject buffers shorter than 8 bytes, then
compare the first 8 bytes with the PNG signature. -/
def isValidPng (buffer : List Nat) : Bool :=
  if buffer.length < 8 then false
  else buffer.take 8 == pngSignature

/-- JavaScript `s.startsWith(p)`, on the character lists underlying the two
strings. -/
def strStartsWith (s p : String) : Bool :=
  List.isPrefixOf p.data s.data

/-- JavaScript `s.endsWith(p)` (and `file.endsWith(".png")` of the source),
on the character lists underlying the two strings. -/
def strEndsWith (s p : String) : Bool :=
  List.isSuffixOf p.data s.data

/-- A path lying directly in one of the two artifact directories and ending
in `".png"` — exactly the files `cleanScreenshotDirectories` unlinks. -/
def isArtifactPng (f : String) : Bool :=
  (strStartsWith f (screenshotDir ++ "/") && strEndsWith f ".png") ||
    (strStartsWith f (extraScreenshotDir ++ "/") && strEndsWith f ".png")

/-- The purge `cleanScreenshotDirectories` (lines 66-108): for each of the two artifact
directories, list the directory, keep the entries ending in `".png"`, and
unlink each of them. On the path-list filesystem this deletes exactly the
paths that lie directly in one of the two directories and end in `".png"`.
The model keeps paths flat (`dir ++ "/" ++ name`, `name` slash-free), which
matches every path the helper itself creates. -/
def cleanScreenshotDirectories (files : List String) : List String :=
  files.filter (fun f => !isArtifactPng f)

/-- The constructor (lines 25-44): store the view, start with both queues
empty, and clean the two artifact directories. `disk` is the set of files
existing before construction. -/
def initialState (view : View) (disk : List String) : HelperState :=
  { screenshotQueue := []
    extraScreenshotQueue := []
    view := view
    files := cleanScreenshotDirectories disk }

/-- Outcome of `captureScreenshot()` as observed by `takeScreenshot`: either
the promise rejected with a message, or it resolved with a buffer. -/
inductive CaptureOutcome where
  | fail (msg : String)
  | buf (b : List Nat)
deriving DecidableEq, Repr

/-- Result of one `takeScreenshot` call: the post-state and either the
returned path or the thrown error message. -/
structure TakeResult where
  state : HelperState
  result : Except String String
deriving Repr

/-- The push-then-evict step shared by both branches of `takeScreenshot`
(lines 432-446 and 456-470): push the new path, and if the queue length now
exceeds `MAX_SCREENSHOTS`, shift the front entry off and report it for
deletion. -/
def pushEvict (q : List String) (p : String) : List String × Option String :=
  let q := q ++ [p]
  if q.length > MAX_SCREENSHOTS then (q.tail, q.head?)
  else (q, none)

/-- The capture entry point `takeScreenshot` (lines 406-478). `cap` is the outcome of
`captureScreenshot()`, `name` the generated uuid, `writeOk` whether the
artifact `writeFile` succeeds. Steps, in source order: capture; reject an
empty buffer; reject an invalid PNG; choose the directory and queue from the
current view; write the file; push the path; evict (shift + unlink) if the
queue now exceeds `MAX_SCREENSHOTS`. Any thrown error is rethrown by the
outer catch with the state untouched by later steps. -/
def takeScreenshot (s : HelperState) (cap : CaptureOutcome) (name : String)
    (writeOk : Bool) : TakeResult :=
  match cap with
  | .fail msg => ⟨s, .error ("Failed to capture screenshot: " ++ msg)⟩
  | .buf b =>
    if b.length = 0 then
      ⟨s, .error "Screenshot capture returned empty buffer"⟩
    else if !isValidPng b then
      ⟨s, .error "Captured screenshot is not a valid PNG"⟩
    else if s.view = View.queue then
      let p := mainPathOf name
      if writeOk then
        let r := pushEvict s.screenshotQueue p
        let files :=
          match r.2 with
          | none => fsWrite s.files p
          | some old => fsUnlink (fsWrite s.files p) old
        ⟨{ s with screenshotQueue := r.1, files := files }, .ok p⟩
      else ⟨s, .error "Failed to write screenshot file"⟩
    else
      let p := extraPathOf name
      if writeOk then
        let r := pushEvict s.extraScreenshotQueue p
        let files :=
          match r.2 with
          | none => fsWrite s.files p
          | some old => fsUnlink (fsWrite s.files p) old
        ⟨{ s with extraScreenshotQueue := r.1, files := files }, .ok p⟩
      else ⟨s, .error "Failed to write screenshot file"⟩

/-- Result of `deleteScreenshot`: `{ success: boolean; error?: string }`. -/
structure DeleteResult where
  success : Bool
  error : Option String
deriving DecidableEq, Repr

/-- The removal operation `deleteScreenshot` (lines 495-518): unlink the file if it exists; then
filter the path out of the queue selected by the *current view*
(`screenshotQueue` when `view === "queue"`, otherwise
`extraScreenshotQueue`); return success. On the model filesystem unlinking
an existing path always succeeds, so the catch branch is unreachable. -/
def deleteScreenshot (s : HelperState) (p : String) : HelperState × DeleteResult :=
  let files := if p ∈ s.files then fsUnlink s.files p else s.files
  if s.view = View.queue then
    (⟨s.screenshotQueue.filter (fun fp => fp != p), s.extraScreenshotQueue,
      s.view, files⟩, ⟨true, none⟩)
  else
    (⟨s.screenshotQueue, s.extraScreenshotQueue.filter (fun fp => fp != p),
      s.view, files⟩, ⟨true, none⟩)

/-- The mode change `setView` (lines 114-123): update the view, queues untouched. -/
def setView (s : HelperState) (v : View) : HelperState :=
  { s with view := v }

/-- One operation against the helper, for reasoning about arbitrary
interleavings of mode changes, captures and deletions. -/
inductive Op where
  | take (cap : CaptureOutcome) (name : String) (writeOk : Bool)
  | setView (v : View)
  | delete (p : String)
deriving Repr

/-- Apply one operation to the state (ignoring the returned value). -/
def runOp (s : HelperState) : Op → HelperState
  | .take cap name w => (takeScreenshot s cap name w).state
  | .setView v => setView s v
  | .delete p => (deleteScreenshot s p).1

/-- Run a sequence of operations from a state. -/
def runOps (s : HelperState) (ops : List Op) : HelperState :=
  ops.foldl runOp s

/-! ### The Windows capture orchestrator (`captureWindowsScreenshot`)

Each of the two methods interacts with the outside world (the
`screenshot-desktop` call resp. the PowerShell subprocess, plus the temp
file). The raw outcome of one method invocation is: the external call threw
or timed out; or it completed but the temp file was not created; or the temp
file exists with some contents. The in-code checks (PNG validation,
1024-byte minimum) are applied by the orchestrator on top of the raw
outcome. -/

/-- Raw outcome of one external capture invocation. -/
inductive RawOutcome where
  | threw (msg : String)
  | noFile
  | file (b : List Nat)
deriving DecidableEq, Repr

/-- The retry bound `maxRetries = 3` (line 248). -/
def maxRetries : Nat := 3

/-- The backoff delay before the next round: `200 * 2^(attempt-1)`
(line 388). -/
def backoffDelay (attempt : Nat) : Nat := 200 * 2 ^ (attempt - 1)

/-- Method 1 (lines 254-297): `screenshot-desktop` to a temp file. A thrown
error (including timeout) propagates; a missing file throws
"Screenshot file not created"; a file is read, PNG-validated, and rejected
if under 1024 bytes. -/
def method1Step : RawOutcome → Except String (List Nat)
  | .threw msg => .error msg
  | .noFile => .error "Screenshot file not created"
  | .file b =>
    if !isValidPng b then .error "Invalid PNG format"
    else if b.length < 1024 then .error "Screenshot too small - likely invalid"
    else .ok b

/-- Method 2 (lines 304-378): PowerShell capture to a temp file, with the
same shape of checks and its own messages. -/
def method2Step : RawOutcome → Except String (List Nat)
  | .threw msg => .error msg
  | .noFile => .error "PowerShell screenshot file not created"
  | .file b =>
    if !isValidPng b then .error "Invalid PNG format from PowerShell"
    else if b.length < 1024 then .error "PowerShell screenshot too small - likely invalid"
    else .ok b

/-- The diagnostic entry pushed onto `errors`:
`"Method ${m} (attempt ${attempt}): ${errorMsg}"` (lines 301, 382). -/
def errTag (method attempt : Nat) (msg : String) : String :=
  "Method " ++ toString method ++ " (attempt " ++ toString attempt ++ "): " ++ msg

/-- The aggregated error thrown when every attempt fails (lines 395-399). -/
def exhaustMessage (errors : List String) : String :=
  "Could not capture screenshot after " ++ toString maxRetries ++
    " attempts. Errors: " ++ String.intercalate "; " errors

/-- Observable result of one `captureWindowsScreenshot()` call: the returned
buffer or thrown message, the accumulated `errors` array, and the list of
backoff delays actually slept. -/
structure CaptureResult where
  outcome : Except String (List Nat)
  errors : List String
  sleeps : List Nat
deriving Repr

/-- The retry loop of `captureWindowsScreenshot` (lines 250-392), recursing
on the number of remaining attempts. `m1 a` / `m2 a` are the raw outcomes of
Method 1 / Method 2 on attempt `a` (Method 2 runs only in Method 1's catch
block). After a failed round, if more attempts remain, the backoff delay is
slept. -/
def captureAttempts (m1 m2 : Nat → RawOutcome) :
    Nat → Nat → List String → List Nat → CaptureResult
  | 0, _, errors, sleeps =>
      ⟨.error (exhaustMessage errors), errors, sleeps⟩
  | remaining + 1, attempt, errors, sleeps =>
      match method1Step (m1 attempt) with
      | .ok b => ⟨.ok b, errors, sleeps⟩
      | .error e1 =>
        let errors := errors ++ [errTag 1 attempt e1]
        match method2Step (m2 attempt) with
        | .ok b => ⟨.ok b, errors, sleeps⟩
        | .error e2 =>
          let errors := errors ++ [errTag 2 attempt e2]
          let sleeps :=
            if attempt < maxRetries then sleeps ++ [backoffDelay attempt]
            else sleeps
          captureAttempts m1 m2 remaining (attempt + 1) errors sleeps

/-- The orchestrator `captureWindowsScreenshot` (lines 241-400): run up to `maxRetries`
rounds starting from attempt 1 with empty diagnostics. -/
def captureWindowsScreenshot (m1 m2 : Nat → RawOutcome) : CaptureResult :=
  captureAttempts m1 m2 maxRetries 1 [] []

/-! ### Reference semantics of the queue getters

`getScreenshotQueue` / `getExtraScreenshotQueue` (lines 125-132) execute
`return this.screenshotQueue` / `return this.extraScreenshotQueue`: in
JavaScript this returns the *array object itself*, not a copy. To state
claims about aliasing, this fragment is embedded with an explicit heap: the
two queue fields hold references (indices) into a heap of array objects, a
getter returns the reference, and a caller-side `push` on the returned array
is a heap update at that reference. -/

/-- Heap of JavaScript array objects, addressed by index. -/
def Heap : Type := List (List String)

/-- Dereference an array object (a dangling reference reads as empty,
unreachable for the helper's own fields). -/
def heapRead : Heap → Nat → List String
  | [], _ => []
  | a :: _, 0 => a
  | _ :: h, r + 1 => heapRead h r

/-- Caller-side `arr.push(x)` on the array object at reference `r`. -/
def heapPush (h : Heap) (r : Nat) (x : String) : Heap :=
  List.set h r (heapRead h r ++ [x])

/-- The helper's queue fields, as references into the heap. -/
structure RefModel where
  heap : Heap
  mainRef : Nat
  extraRef : Nat

/-- The getter `getScreenshotQueue()` (lines 125-127): `return this.screenshotQueue` —
the value returned to the caller is the reference stored in the field. -/
def getScreenshotQueue (m : RefModel) : Nat := m.mainRef

/-- The getter `getExtraScreenshotQueue()` (lines 129-132): likewise returns the
reference stored in the field. -/
def getExtraScreenshotQueue (m : RefModel) : Nat := m.extraRef

/-- The caller mutates the collection a getter returned:
`getScreenshotQueue().push(x)`. -/
def callerPush (m : RefModel) (r : Nat) (x : String) : RefModel :=
  { m with heap := heapPush m.heap r x }

/-- The queue contents the helper itself sees through its field. -/
def internalMainQueue (m : RefModel) : List String :=
  heapRead m.heap m.mainRef

/-- The secondary queue contents the helper itself sees. -/
def internalExtraQueue (m : RefModel) : List String :=
  heapRead m.heap m.extraRef

/-- A PNG buffer of exactly 1024 bytes: signature followed by padding. -/
def validBigBuf : List Nat := pngSignature ++ List.replicate 1016 0

/-- A full primary queue of five distinct artifact paths, for witnesses. -/
def mainFull : List String :=
  ["screenshots/a.png", "screenshots/b.png", "screenshots/c.png",
   "screenshots/d.png", "screenshots/e.png"]

/-- A full secondary queue of five distinct artifact paths, for witnesses. -/
def extraFull : List String :=
  ["extra_screenshots/a.png", "extra_screenshots/b.png",
   "extra_screenshots/c.png", "extra_screenshots/d.png",
   "extra_screenshots/e.png"]

end Screenshot

namespace Screenshot

/-! ## Theorems for the claims -/

/-- C3 counterexample: the 8-byte buffer consisting of exactly the PNG
signature matches the signature and is far shorter than the 1024-byte
minimum-size threshold, yet `isValidPng` returns `true` — the claim predicts
`false` for every signature-matching buffer under the threshold. -/
theorem C3_counterexample :
    isValidPng pngSignature = true ∧ pngSignature.length < 1024 := by
  decide

/-- C3 (amended): `isValidPng` checks only the 8-byte signature (and the
8-byte minimum length this requires): it returns `true` exactly for buffers
of length ≥ 8 whose first 8 bytes are the PNG signature, and `false` for
truncated (< 8 byte) buffers and buffers with a corrupted first byte. The
1024-byte minimum is enforced separately, by the capture strategies: both
Method 1 and Method 2 reject a signature-matching buffer shorter than 1024
bytes with a "too small" error. -/
theorem C3_validator (b : List Nat) :
    (isValidPng b = true ↔ 8 ≤ b.length ∧ b.take 8 = pngSignature) ∧
    (b.length < 8 → isValidPng b = false) ∧
    (∀ x t, x ≠ 0x89 → isValidPng (x :: t) = false) ∧
    (b.take 8 = pngSignature → b.length < 1024 →
      method1Step (RawOutcome.file b) = .error "Screenshot too small - likely invalid" ∧
      method2Step (RawOutcome.file b) = .error "PowerShell screenshot too small - likely invalid") := by
  have hiff : isValidPng b = true ↔ 8 ≤ b.length ∧ b.take 8 = pngSignature := by
    unfold isValidPng
    split
    · next h =>
      simp only [Bool.false_eq_true, false_iff, not_and]
      intro h8
      omega
    · next h =>
      rw [beq_iff_eq]
      constructor
      · intro ht
        exact ⟨by omega, ht⟩
      · intro ht
        exact ht.2
  refine ⟨hiff, ?_, ?_, ?_⟩
  · intro h8
    unfold isValidPng
    rw [if_pos h8]
  · intro x t hx
    unfold isValidPng
    split
    · rfl
    · next h =>
      rw [beq_eq_false_iff_ne]
      intro he
      have htake : (x :: t).take 8 = x :: t.take 7 := rfl
      rw [htake] at he
      simp only [pngSignature, List.cons.injEq] at he
      exact hx he.1
  · intro hsig h1024
    have h8 : 8 ≤ b.length := by
      have hl := congrArg List.length hsig
      simp only [List.length_take, pngSignature] at hl
      simp only [List.length_cons, List.length_nil] at hl
      omega
    have hv : isValidPng b = true := hiff.mpr ⟨h8, hsig⟩
    constructor
    · simp [method1Step, hv, h1024]
    · simp [method2Step, hv, h1024]

/-- C3 witness: the amended theorem evaluated at concrete buffers — the bare
signature is accepted by `isValidPng` but rejected as "too small" by both
strategies; a 7-byte buffer and a corrupted-first-byte buffer are rejected
by `isValidPng`. -/
theorem C3_validator_witness :
    isValidPng pngSignature = true ∧
    isValidPng [0x89, 0x50, 0x4e, 0x47, 0x0d, 0x0a, 0x1a] = false ∧
    isValidPng (0x88 :: [0x50, 0x4e, 0x47, 0x0d, 0x0a, 0x1a, 0x0a]) = false ∧
    method1Step (RawOutcome.file pngSignature) =
      .error "Screenshot too small - likely invalid" ∧
    method2Step (RawOutcome.file pngSignature) =
      .error "PowerShell screenshot too small - likely invalid" :=
  ⟨(C3_validator pngSignature).1.mpr (by decide),
   (C3_validator [0x89, 0x50, 0x4e, 0x47, 0x0d, 0x0a, 0x1a]).2.1 (by decide),
   (C3_validator []).2.2.1 0x88 [0x50, 0x4e, 0x47, 0x0d, 0x0a, 0x1a, 0x0a] (by decide),
   ((C3_validator pngSignature).2.2.2 (by decide) (by decide)).1,
   ((C3_validator pngSignature).2.2.2 (by decide) (by decide)).2⟩

/-- C2: if both methods fail on every attempt, `captureWindowsScreenshot`
runs exactly `maxRetries = 3` rounds, sleeps the exponential backoff
delays 200ms and 400ms between consecutive rounds, records exactly one
diagnostic entry per (method, attempt) pair — 2 × 3 = 6 entries, each
tagged with its method and attempt number — and throws the aggregated
error built from those entries. -/
theorem C2_exhaustion (m1 m2 : Nat → RawOutcome) (e1 e2 : Nat → String)
    (h1 : ∀ a, method1Step (m1 a) = .error (e1 a))
    (h2 : ∀ a, method2Step (m2 a) = .error (e2 a)) :
    (captureWindowsScreenshot m1 m2).errors =
      [errTag 1 1 (e1 1), errTag 2 1 (e2 1),
       errTag 1 2 (e1 2), errTag 2 2 (e2 2),
       errTag 1 3 (e1 3), errTag 2 3 (e2 3)] ∧
    (captureWindowsScreenshot m1 m2).errors.length = 2 * maxRetries ∧
    (captureWindowsScreenshot m1 m2).sleeps =
      [backoffDelay 1, backoffDelay 2] ∧
    backoffDelay 1 = 200 ∧ backoffDelay 2 = 400 ∧
    (captureWindowsScreenshot m1 m2).outcome =
      .error (exhaustMessage (captureWindowsScreenshot m1 m2).errors) := by
  have hrun : captureWindowsScreenshot m1 m2 =
      ⟨.error (exhaustMessage
          [errTag 1 1 (e1 1), errTag 2 1 (e2 1),
           errTag 1 2 (e1 2), errTag 2 2 (e2 2),
           errTag 1 3 (e1 3), errTag 2 3 (e2 3)]),
        [errTag 1 1 (e1 1), errTag 2 1 (e2 1),
         errTag 1 2 (e1 2), errTag 2 2 (e2 2),
         errTag 1 3 (e1 3), errTag 2 3 (e2 3)],
        [backoffDelay 1, backoffDelay 2]⟩ := by
    simp [captureWindowsScreenshot, maxRetries, captureAttempts, h1, h2]
  rw [hrun]
  refine ⟨rfl, by simp [maxRetries], rfl, by simp [backoffDelay], by simp [backoffDelay], rfl⟩

/-- C2 witness: both methods throw on every attempt. -/
theorem C2_exhaustion_witness :
    (captureWindowsScreenshot (fun _ => .threw "m1 down") (fun _ => .threw "m2 down")).errors =
      [errTag 1 1 "m1 down", errTag 2 1 "m2 down",
       errTag 1 2 "m1 down", errTag 2 2 "m2 down",
       errTag 1 3 "m1 down", errTag 2 3 "m2 down"] ∧
    (captureWindowsScreenshot (fun _ => .threw "m1 down") (fun _ => .threw "m2 down")).errors.length =
      2 * maxRetries ∧
    (captureWindowsScreenshot (fun _ => .threw "m1 down") (fun _ => .threw "m2 down")).sleeps =
      [backoffDelay 1, backoffDelay 2] ∧
    backoffDelay 1 = 200 ∧ backoffDelay 2 = 400 ∧
    (captureWindowsScreenshot (fun _ => .threw "m1 down") (fun _ => .threw "m2 down")).outcome =
      .error (exhaustMessage
        (captureWindowsScreenshot (fun _ => .threw "m1 down") (fun _ => .threw "m2 down")).errors) :=
  C2_exhaustion (fun _ => .threw "m1 down") (fun _ => .threw "m2 down")
    (fun _ => "m1 down") (fun _ => "m2 down") (fun _ => rfl) (fun _ => rfl)

/-- C6: if Method 1 fails on attempt 1 and Method 2 succeeds with a
validated buffer on attempt 1, `captureWindowsScreenshot` returns Method 2's
buffer immediately during attempt 1: no backoff sleep occurs and the
diagnostic trail holds exactly the single Method 1 / attempt 1 failure. -/
theorem C6_fallback (m1 m2 : Nat → RawOutcome) (e : String) (b : List Nat)
    (h1 : method1Step (m1 1) = .error e)
    (h2 : method2Step (m2 1) = .ok b) :
    (captureWindowsScreenshot m1 m2).outcome = .ok b ∧
    (captureWindowsScreenshot m1 m2).sleeps = [] ∧
    (captureWindowsScreenshot m1 m2).errors = [errTag 1 1 e] := by
  have hrun : captureWindowsScreenshot m1 m2 = ⟨.ok b, [errTag 1 1 e], []⟩ := by
    simp [captureWindowsScreenshot, maxRetries, captureAttempts, h1, h2]
  rw [hrun]
  exact ⟨rfl, rfl, rfl⟩

set_option maxRecDepth 20000 in
/-- C6 witness: Method 1 times out, Method 2 produces a 1024-byte valid PNG. -/
theorem C6_fallback_witness :
    (captureWindowsScreenshot (fun _ => .threw "screenshot-desktop timed out after 5 seconds")
        (fun _ => .file validBigBuf)).outcome = .ok validBigBuf ∧
    (captureWindowsScreenshot (fun _ => .threw "screenshot-desktop timed out after 5 seconds")
        (fun _ => .file validBigBuf)).sleeps = [] ∧
    (captureWindowsScreenshot (fun _ => .threw "screenshot-desktop timed out after 5 seconds")
        (fun _ => .file validBigBuf)).errors =
      [errTag 1 1 "screenshot-desktop timed out after 5 seconds"] :=
  C6_fallback (fun _ => .threw "screenshot-desktop timed out after 5 seconds")
    (fun _ => .file validBigBuf) "screenshot-desktop timed out after 5 seconds" validBigBuf
    rfl rfl

/-! ### Lemmas about `deleteScreenshot` -/

lemma deleteScreenshot_success (s : HelperState) (p : String) :
    (deleteScreenshot s p).2.success = true := by
  unfold deleteScreenshot
  split <;> split <;> rfl

lemma deleteScreenshot_files (s : HelperState) (p : String) :
    (deleteScreenshot s p).1.files =
      if p ∈ s.files then s.files.erase p else s.files := by
  unfold deleteScreenshot fsUnlink
  split <;> split <;> rfl

lemma deleteScreenshot_view (s : HelperState) (p : String) :
    (deleteScreenshot s p).1.view = s.view := by
  unfold deleteScreenshot
  split <;> split <;> rfl

lemma deleteScreenshot_queues_queue (s : HelperState) (p : String)
    (hv : s.view = View.queue) :
    (deleteScreenshot s p).1.screenshotQueue =
        s.screenshotQueue.filter (fun fp => fp != p) ∧
    (deleteScreenshot s p).1.extraScreenshotQueue = s.extraScreenshotQueue := by
  simp only [deleteScreenshot, hv]
  exact ⟨rfl, rfl⟩

lemma deleteScreenshot_queues_other (s : HelperState) (p : String)
    (hv : s.view ≠ View.queue) :
    (deleteScreenshot s p).1.screenshotQueue = s.screenshotQueue ∧
    (deleteScreenshot s p).1.extraScreenshotQueue =
      s.extraScreenshotQueue.filter (fun fp => fp != p) := by
  simp [deleteScreenshot, if_neg hv]

lemma filter_ne_of_not_mem (l : List String) (p : String) (h : p ∉ l) :
    l.filter (fun fp => fp != p) = l :=
  List.filter_eq_self.mpr (fun a ha => by
    simp only [bne_iff_ne, ne_eq]
    rintro rfl
    exact h ha)

/-- C4 counterexample: with the view set to `solutions`, deleting a path
that sits in the *primary* queue removes the file and reports success but
leaves the path in the primary queue — `deleteScreenshot` does not remove
the path from "whichever queue currently contains it"; it only filters the
queue selected by the current view. -/
theorem C4_counterexample :
    "screenshots/a.png" ∈
      (HelperState.mk ["screenshots/a.png"] [] View.solutions
        ["screenshots/a.png"]).screenshotQueue ∧
    (deleteScreenshot
      (HelperState.mk ["screenshots/a.png"] [] View.solutions
        ["screenshots/a.png"]) "screenshots/a.png").2.success = true ∧
    "screenshots/a.png" ∈
      (deleteScreenshot
        (HelperState.mk ["screenshots/a.png"] [] View.solutions
          ["screenshots/a.png"]) "screenshots/a.png").1.screenshotQueue := by
  decide

/-- C4 (amended): `deleteScreenshot` deletes the file if present, succeeds
even if the file was already absent, and removes the path — by exact path
equality — from the queue selected by the *current view* only: the primary
queue when the view is `queue`, otherwise the secondary queue; the other
queue is left unchanged even if it contains the path. -/
theorem C4_remove (s : HelperState) (p : String) (hnd : s.files.Nodup) :
    (deleteScreenshot s p).2.success = true ∧
    p ∉ (deleteScreenshot s p).1.files ∧
    (s.view = View.queue →
      (deleteScreenshot s p).1.screenshotQueue =
          s.screenshotQueue.filter (fun fp => fp != p) ∧
      (deleteScreenshot s p).1.extraScreenshotQueue = s.extraScreenshotQueue) ∧
    (s.view ≠ View.queue →
      (deleteScreenshot s p).1.screenshotQueue = s.screenshotQueue ∧
      (deleteScreenshot s p).1.extraScreenshotQueue =
        s.extraScreenshotQueue.filter (fun fp => fp != p)) := by
  refine ⟨deleteScreenshot_success s p, ?_, ?_, ?_⟩
  · rw [deleteScreenshot_files]
    split
    · exact hnd.not_mem_erase
    · next h => exact h
  · exact deleteScreenshot_queues_queue s p
  · exact deleteScreenshot_queues_other s p

/-- C4 witness: the amended theorem at a state holding one artifact in each
queue, in `queue` view, deleting a path whose file exists. -/
theorem C4_remove_witness :
    (deleteScreenshot
        (HelperState.mk ["screenshots/a.png"] ["extra_screenshots/b.png"]
          View.queue ["screenshots/a.png", "extra_screenshots/b.png"])
        "screenshots/a.png").2.success = true ∧
    "screenshots/a.png" ∉
      (deleteScreenshot
        (HelperState.mk ["screenshots/a.png"] ["extra_screenshots/b.png"]
          View.queue ["screenshots/a.png", "extra_screenshots/b.png"])
        "screenshots/a.png").1.files ∧
    (View.queue = View.queue →
      (deleteScreenshot
          (HelperState.mk ["screenshots/a.png"] ["extra_screenshots/b.png"]
            View.queue ["screenshots/a.png", "extra_screenshots/b.png"])
          "screenshots/a.png").1.screenshotQueue =
        ["screenshots/a.png"].filter (fun fp => fp != "screenshots/a.png") ∧
      (deleteScreenshot
          (HelperState.mk ["screenshots/a.png"] ["extra_screenshots/b.png"]
            View.queue ["screenshots/a.png", "extra_screenshots/b.png"])
          "screenshots/a.png").1.extraScreenshotQueue =
        ["extra_screenshots/b.png"]) ∧
    (View.queue ≠ View.queue →
      (deleteScreenshot
          (HelperState.mk ["screenshots/a.png"] ["extra_screenshots/b.png"]
            View.queue ["screenshots/a.png", "extra_screenshots/b.png"])
          "screenshots/a.png").1.screenshotQueue = ["screenshots/a.png"] ∧
      (deleteScreenshot
          (HelperState.mk ["screenshots/a.png"] ["extra_screenshots/b.png"]
            View.queue ["screenshots/a.png", "extra_screenshots/b.png"])
          "screenshots/a.png").1.extraScreenshotQueue =
        ["extra_screenshots/b.png"].filter (fun fp => fp != "screenshots/a.png")) :=
  C4_remove
    (HelperState.mk ["screenshots/a.png"] ["extra_screenshots/b.png"]
      View.queue ["screenshots/a.png", "extra_screenshots/b.png"])
    "screenshots/a.png" (by decide)

/-- C9: `deleteScreenshot` is idempotent on an already-removed path: if the
path is in neither queue and its file is gone, both the first and the second
call report success, and neither changes the state at all (in particular no
unrelated queue entry is touched). -/
theorem C9_idempotent_remove (s : HelperState) (p : String)
    (hq : p ∉ s.screenshotQueue) (he : p ∉ s.extraScreenshotQueue)
    (hf : p ∉ s.files) :
    (deleteScreenshot s p).2.success = true ∧
    (deleteScreenshot s p).1 = s ∧
    (deleteScreenshot (deleteScreenshot s p).1 p).2.success = true ∧
    (deleteScreenshot (deleteScreenshot s p).1 p).1 = s := by
  have hid : (deleteScreenshot s p).1 = s := by
    obtain ⟨q, eq, v, f⟩ := s
    simp only at hq he hf
    unfold deleteScreenshot
    rw [if_neg hf]
    split <;>
      simp [filter_ne_of_not_mem _ _ hq, filter_ne_of_not_mem _ _ he]
  refine ⟨deleteScreenshot_success s p, hid, ?_, ?_⟩
  · rw [hid]
    exact deleteScreenshot_success s p
  · rw [hid]
    exact hid

/-- C9 witness: a state with one unrelated entry per queue, removing an
absent path twice. -/
theorem C9_idempotent_remove_witness :
    (deleteScreenshot
        (HelperState.mk ["screenshots/a.png"] ["extra_screenshots/b.png"]
          View.queue ["screenshots/a.png", "extra_screenshots/b.png"])
        "screenshots/gone.png").2.success = true ∧
    (deleteScreenshot
        (HelperState.mk ["screenshots/a.png"] ["extra_screenshots/b.png"]
          View.queue ["screenshots/a.png", "extra_screenshots/b.png"])
        "screenshots/gone.png").1 =
      HelperState.mk ["screenshots/a.png"] ["extra_screenshots/b.png"]
        View.queue ["screenshots/a.png", "extra_screenshots/b.png"] ∧
    (deleteScreenshot
        (deleteScreenshot
          (HelperState.mk ["screenshots/a.png"] ["extra_screenshots/b.png"]
            View.queue ["screenshots/a.png", "extra_screenshots/b.png"])
          "screenshots/gone.png").1 "screenshots/gone.png").2.success = true ∧
    (deleteScreenshot
        (deleteScreenshot
          (HelperState.mk ["screenshots/a.png"] ["extra_screenshots/b.png"]
            View.queue ["screenshots/a.png", "extra_screenshots/b.png"])
          "screenshots/gone.png").1 "screenshots/gone.png").1 =
      HelperState.mk ["screenshots/a.png"] ["extra_screenshots/b.png"]
        View.queue ["screenshots/a.png", "extra_screenshots/b.png"] :=
  C9_idempotent_remove
    (HelperState.mk ["screenshots/a.png"] ["extra_screenshots/b.png"]
      View.queue ["screenshots/a.png", "extra_screenshots/b.png"])
    "screenshots/gone.png" (by decide) (by decide) (by decide)

/-! ### Heap lemma for the getter aliasing claim -/

lemma heapRead_set (h : Heap) (r : Nat) (v : List String) (hr : r < h.length) :
    heapRead (List.set h r v) r = v := by
  induction h generalizing r with
  | nil => simp at hr
  | cons a t ih =>
    cases r with
    | zero => rfl
    | succ n => exact ih n (by simpa using hr)

/-- C5 counterexample: `getScreenshotQueue` hands back the internal array
object itself; pushing onto the returned collection changes what the
service subsequently reads through its own field, so the getter is not a
snapshot. -/
theorem C5_counterexample :
    internalMainQueue
        (callerPush (RefModel.mk [["screenshots/a.png"]] 0 0)
          (getScreenshotQueue (RefModel.mk [["screenshots/a.png"]] 0 0)) "x") ≠
      internalMainQueue (RefModel.mk [["screenshots/a.png"]] 0 0) := by
  decide

/-- C5 (amended): the getters `getScreenshotQueue` / `getExtraScreenshotQueue` return
the internal array object itself (the reference stored in the field), not a
snapshot: a caller-side `push` on the returned collection appends to the
very queue the service reads internally, so the mutation is visible to
every subsequent query. -/
theorem C5_getters_alias (m : RefModel) (x : String)
    (hr : m.mainRef < m.heap.length) (hre : m.extraRef < m.heap.length) :
    getScreenshotQueue m = m.mainRef ∧
    getExtraScreenshotQueue m = m.extraRef ∧
    internalMainQueue (callerPush m (getScreenshotQueue m) x) =
      internalMainQueue m ++ [x] ∧
    internalExtraQueue (callerPush m (getExtraScreenshotQueue m) x) =
      internalExtraQueue m ++ [x] := by
  refine ⟨rfl, rfl, ?_, ?_⟩
  · exact heapRead_set m.heap m.mainRef _ hr
  · exact heapRead_set m.heap m.extraRef _ hre

/-- C5 witness: a two-object heap, pushing through each getter. -/
theorem C5_getters_alias_witness :
    getScreenshotQueue (RefModel.mk [["a"], ["b"]] 0 1) = 0 ∧
    getExtraScreenshotQueue (RefModel.mk [["a"], ["b"]] 0 1) = 1 ∧
    internalMainQueue
        (callerPush (RefModel.mk [["a"], ["b"]] 0 1)
          (getScreenshotQueue (RefModel.mk [["a"], ["b"]] 0 1)) "x") =
      internalMainQueue (RefModel.mk [["a"], ["b"]] 0 1) ++ ["x"] ∧
    internalExtraQueue
        (callerPush (RefModel.mk [["a"], ["b"]] 0 1)
          (getExtraScreenshotQueue (RefModel.mk [["a"], ["b"]] 0 1)) "x") =
      internalExtraQueue (RefModel.mk [["a"], ["b"]] 0 1) ++ ["x"] :=
  C5_getters_alias (RefModel.mk [["a"], ["b"]] 0 1) "x" (by decide) (by decide)

/-- C8: at construction every `.png` file found directly in either artifact
directory — i.e. every file a previous run of the service could have
persisted there — is deleted, and both queues have length zero, regardless
of what was on disk beforehand. -/
theorem C8_start_purge (v : View) (disk : List String) :
    (initialState v disk).screenshotQueue = [] ∧
    (initialState v disk).extraScreenshotQueue = [] ∧
    ∀ f, isArtifactPng f = true → f ∉ (initialState v disk).files := by
  refine ⟨rfl, rfl, ?_⟩
  intro f hf hmem
  simp only [initialState, cleanScreenshotDirectories] at hmem
  have h2 := (List.mem_filter.mp hmem).2
  rw [hf] at h2
  simp at h2

/-- C8 witness: a disk holding a stale artifact in each directory plus a
non-artifact file; after construction the queues are empty and the stale
artifact is gone. -/
theorem C8_start_purge_witness :
    (initialState View.queue
        ["screenshots/old.png", "extra_screenshots/old2.png", "notes/keep.txt"]).screenshotQueue = [] ∧
    (initialState View.queue
        ["screenshots/old.png", "extra_screenshots/old2.png", "notes/keep.txt"]).extraScreenshotQueue = [] ∧
    "screenshots/old.png" ∉
      (initialState View.queue
        ["screenshots/old.png", "extra_screenshots/old2.png", "notes/keep.txt"]).files :=
  ⟨(C8_start_purge View.queue
      ["screenshots/old.png", "extra_screenshots/old2.png", "notes/keep.txt"]).1,
   (C8_start_purge View.queue
      ["screenshots/old.png", "extra_screenshots/old2.png", "notes/keep.txt"]).2.1,
   (C8_start_purge View.queue
      ["screenshots/old.png", "extra_screenshots/old2.png", "notes/keep.txt"]).2.2
     "screenshots/old.png" (by decide)⟩

/-! ### Lemmas about `pushEvict` and `takeScreenshot` -/

lemma pushEvict_length_le (q : List String) (p : String)
    (h : q.length ≤ MAX_SCREENSHOTS) :
    (pushEvict q p).1.length ≤ MAX_SCREENSHOTS := by
  simp only [pushEvict]
  split
  · next hgt =>
    simp only [List.length_tail, List.length_append, List.length_cons,
      List.length_nil, MAX_SCREENSHOTS] at *
    omega
  · next hgt =>
    simp only [List.length_append, List.length_cons, List.length_nil,
      MAX_SCREENSHOTS] at *
    omega

lemma pushEvict_full (old : String) (rest : List String) (p : String)
    (hlen : (old :: rest).length = MAX_SCREENSHOTS) :
    pushEvict (old :: rest) p = (rest ++ [p], some old) := by
  unfold pushEvict
  rw [if_pos]
  · rfl
  · simp only [List.length_append, List.length_cons, List.length_nil,
      MAX_SCREENSHOTS] at *
    omega

lemma pushEvict_getLast (q : List String) (p : String) :
    (pushEvict q p).1.getLast? = some p := by
  simp only [pushEvict]
  split
  · next hgt =>
    cases q with
    | nil => simp [MAX_SCREENSHOTS] at hgt
    | cons a t => exact List.getLast?_concat _
  · exact List.getLast?_concat _

lemma fsWrite_nodup (files : List String) (p : String) (h : files.Nodup) :
    (fsWrite files p).Nodup := by
  unfold fsWrite
  split
  · exact h
  · next hp => simp [List.nodup_append, h, hp]

lemma takeScreenshot_queue_run (s : HelperState) (b : List Nat) (name : String)
    (hview : s.view = View.queue) (hb : b.length ≠ 0)
    (hpng : isValidPng b = true) :
    takeScreenshot s (.buf b) name true =
      ⟨{ s with
          screenshotQueue := (pushEvict s.screenshotQueue (mainPathOf name)).1,
          files :=
            (match (pushEvict s.screenshotQueue (mainPathOf name)).2 with
              | none => fsWrite s.files (mainPathOf name)
              | some old => fsUnlink (fsWrite s.files (mainPathOf name)) old) },
        .ok (mainPathOf name)⟩ := by
  simp [takeScreenshot, hview, hpng, hb]

lemma takeScreenshot_extra_run (s : HelperState) (b : List Nat) (name : String)
    (hview : s.view ≠ View.queue) (hb : b.length ≠ 0)
    (hpng : isValidPng b = true) :
    takeScreenshot s (.buf b) name true =
      ⟨{ s with
          extraScreenshotQueue :=
            (pushEvict s.extraScreenshotQueue (extraPathOf name)).1,
          files :=
            (match (pushEvict s.extraScreenshotQueue (extraPathOf name)).2 with
              | none => fsWrite s.files (extraPathOf name)
              | some old => fsUnlink (fsWrite s.files (extraPathOf name)) old) },
        .ok (extraPathOf name)⟩ := by
  simp [takeScreenshot, if_neg hview, hpng, hb]

lemma takeScreenshot_ok_shape (s : HelperState) (cap : CaptureOutcome)
    (name : String) (w : Bool) (p : String)
    (h : (takeScreenshot s cap name w).result = .ok p) :
    ∃ b, cap = .buf b ∧ b.length ≠ 0 ∧ isValidPng b = true ∧ w = true := by
  cases cap with
  | fail msg => simp [takeScreenshot] at h
  | buf b =>
    by_cases hb : b.length = 0
    · simp [takeScreenshot, hb] at h
    by_cases hpng : isValidPng b = true
    case neg => simp [takeScreenshot, hb, hpng] at h
    cases w with
    | false =>
      by_cases hv : s.view = View.queue
      · simp [takeScreenshot, hb, hpng, hv] at h
      · simp [takeScreenshot, hb, hpng, if_neg hv] at h
    | true => exact ⟨b, rfl, hb, hpng, rfl⟩

lemma takeScreenshot_error_state (s : HelperState) (cap : CaptureOutcome)
    (name : String) (w : Bool) :
    (∃ p, (takeScreenshot s cap name w).result = .ok p) ∨
      (takeScreenshot s cap name w).state = s := by
  cases cap with
  | fail msg => exact .inr rfl
  | buf b =>
    simp only [takeScreenshot]
    split
    · exact .inr rfl
    · split
      · exact .inr rfl
      · split
        · split
          · exact .inl ⟨_, rfl⟩
          · exact .inr rfl
        · split
          · exact .inl ⟨_, rfl⟩
          · exact .inr rfl

lemma takeScreenshot_state_cases (s : HelperState) (cap : CaptureOutcome)
    (name : String) (w : Bool) :
    (takeScreenshot s cap name w).state = s ∨
    (takeScreenshot s cap name w).state =
      { s with
          screenshotQueue := (pushEvict s.screenshotQueue (mainPathOf name)).1,
          files :=
            (match (pushEvict s.screenshotQueue (mainPathOf name)).2 with
              | none => fsWrite s.files (mainPathOf name)
              | some old => fsUnlink (fsWrite s.files (mainPathOf name)) old) } ∨
    (takeScreenshot s cap name w).state =
      { s with
          extraScreenshotQueue :=
            (pushEvict s.extraScreenshotQueue (extraPathOf name)).1,
          files :=
            (match (pushEvict s.extraScreenshotQueue (extraPathOf name)).2 with
              | none => fsWrite s.files (extraPathOf name)
              | some old => fsUnlink (fsWrite s.files (extraPathOf name)) old) } := by
  cases cap with
  | fail msg => exact .inl rfl
  | buf b =>
    simp only [takeScreenshot]
    split
    · exact .inl rfl
    · split
      · exact .inl rfl
      · split
        · split
          · exact .inr (.inl rfl)
          · exact .inl rfl
        · split
          · exact .inr (.inr rfl)
          · exact .inl rfl

lemma takeScreenshot_bound (s : HelperState) (cap : CaptureOutcome)
    (name : String) (w : Bool)
    (h1 : s.screenshotQueue.length ≤ MAX_SCREENSHOTS)
    (h2 : s.extraScreenshotQueue.length ≤ MAX_SCREENSHOTS) :
    (takeScreenshot s cap name w).state.screenshotQueue.length ≤
        MAX_SCREENSHOTS ∧
    (takeScreenshot s cap name w).state.extraScreenshotQueue.length ≤
      MAX_SCREENSHOTS := by
  rcases takeScreenshot_state_cases s cap name w with hs | hs | hs <;> rw [hs]
  · exact ⟨h1, h2⟩
  · exact ⟨pushEvict_length_le _ _ h1, h2⟩
  · exact ⟨h1, pushEvict_length_le _ _ h2⟩

lemma runOp_bound (s : HelperState) (op : Op)
    (h1 : s.screenshotQueue.length ≤ MAX_SCREENSHOTS)
    (h2 : s.extraScreenshotQueue.length ≤ MAX_SCREENSHOTS) :
    (runOp s op).screenshotQueue.length ≤ MAX_SCREENSHOTS ∧
    (runOp s op).extraScreenshotQueue.length ≤ MAX_SCREENSHOTS := by
  cases op with
  | take cap name w => exact takeScreenshot_bound s cap name w h1 h2
  | setView v => exact ⟨h1, h2⟩
  | delete p =>
    show (deleteScreenshot s p).1.screenshotQueue.length ≤ MAX_SCREENSHOTS ∧
      (deleteScreenshot s p).1.extraScreenshotQueue.length ≤ MAX_SCREENSHOTS
    by_cases hv : s.view = View.queue
    · obtain ⟨hq, he⟩ := deleteScreenshot_queues_queue s p hv
      rw [hq, he]
      exact ⟨le_trans (List.length_filter_le _ _) h1, h2⟩
    · obtain ⟨hq, he⟩ := deleteScreenshot_queues_other s p hv
      rw [hq, he]
      exact ⟨h1, le_trans (List.length_filter_le _ _) h2⟩

lemma runOps_bound (ops : List Op) : ∀ s : HelperState,
    s.screenshotQueue.length ≤ MAX_SCREENSHOTS →
    s.extraScreenshotQueue.length ≤ MAX_SCREENSHOTS →
    (runOps s ops).screenshotQueue.length ≤ MAX_SCREENSHOTS ∧
    (runOps s ops).extraScreenshotQueue.length ≤ MAX_SCREENSHOTS := by
  induction ops with
  | nil => exact fun s h1 h2 => ⟨h1, h2⟩
  | cons op rest ih =>
    intro s h1 h2
    have h := runOp_bound s op h1 h2
    exact ih (runOp s op) h.1 h.2

/-- C1: along every sequence of operations from a fresh service, both
queues always hold at most `MAX_SCREENSHOTS = 5` entries; and a successful
capture that appends to a full queue (in either view) removes exactly the
oldest (front) entry: the queue afterwards is the old tail plus the new
path, its length is again 5, the old front path is no longer in the queue,
and its file is no longer on disk. -/
theorem C1_bounded_queue_eviction :
    (∀ (v : View) (disk : List String) (ops : List Op),
      (runOps (initialState v disk) ops).screenshotQueue.length ≤
          MAX_SCREENSHOTS ∧
      (runOps (initialState v disk) ops).extraScreenshotQueue.length ≤
        MAX_SCREENSHOTS) ∧
    (∀ (s : HelperState) (b : List Nat) (name old : String)
        (rest : List String),
      s.view = View.queue → b.length ≠ 0 → isValidPng b = true →
      s.screenshotQueue = old :: rest →
      s.screenshotQueue.length = MAX_SCREENSHOTS →
      s.screenshotQueue.Nodup → mainPathOf name ∉ s.screenshotQueue →
      s.files.Nodup →
      (takeScreenshot s (.buf b) name true).result = .ok (mainPathOf name) ∧
      (takeScreenshot s (.buf b) name true).state.screenshotQueue =
        rest ++ [mainPathOf name] ∧
      (takeScreenshot s (.buf b) name true).state.screenshotQueue.length =
        MAX_SCREENSHOTS ∧
      old ∉ (takeScreenshot s (.buf b) name true).state.screenshotQueue ∧
      old ∉ (takeScreenshot s (.buf b) name true).state.files) ∧
    (∀ (s : HelperState) (b : List Nat) (name old : String)
        (rest : List String),
      s.view ≠ View.queue → b.length ≠ 0 → isValidPng b = true →
      s.extraScreenshotQueue = old :: rest →
      s.extraScreenshotQueue.length = MAX_SCREENSHOTS →
      s.extraScreenshotQueue.Nodup → extraPathOf name ∉ s.extraScreenshotQueue →
      s.files.Nodup →
      (takeScreenshot s (.buf b) name true).result = .ok (extraPathOf name) ∧
      (takeScreenshot s (.buf b) name true).state.extraScreenshotQueue =
        rest ++ [extraPathOf name] ∧
      (takeScreenshot s (.buf b) name true).state.extraScreenshotQueue.length =
        MAX_SCREENSHOTS ∧
      old ∉ (takeScreenshot s (.buf b) name true).state.extraScreenshotQueue ∧
      old ∉ (takeScreenshot s (.buf b) name true).state.files) := by
  refine ⟨?_, ?_, ?_⟩
  · intro v disk ops
    exact runOps_bound ops (initialState v disk) (by simp [initialState])
      (by simp [initialState])
  · intro s b name old rest hview hb hpng hq hlen hnd hfresh hfnd
    have hpe : pushEvict s.screenshotQueue (mainPathOf name) =
        (rest ++ [mainPathOf name], some old) := by
      rw [hq]
      rw [hq] at hlen
      exact pushEvict_full old rest _ hlen
    have hrestlen : rest.length + 1 = MAX_SCREENSHOTS := by
      rw [hq] at hlen
      simpa using hlen
    have holdrest : old ∉ rest := by
      rw [hq] at hnd
      exact (List.nodup_cons.mp hnd).1
    have holdp : old ≠ mainPathOf name := by
      intro he
      apply hfresh
      rw [hq, ← he]
      exact List.mem_cons_self _ _
    rw [takeScreenshot_queue_run s b name hview hb hpng, hpe]
    refine ⟨rfl, rfl, ?_, ?_, ?_⟩
    · simp only [List.length_append, List.length_cons, List.length_nil]
      omega
    · intro hmem
      rcases List.mem_append.mp hmem with h | h
      · exact holdrest h
      · exact holdp (List.mem_singleton.mp h)
    · exact (fsWrite_nodup s.files _ hfnd).not_mem_erase
  · intro s b name old rest hview hb hpng hq hlen hnd hfresh hfnd
    have hpe : pushEvict s.extraScreenshotQueue (extraPathOf name) =
        (rest ++ [extraPathOf name], some old) := by
      rw [hq]
      rw [hq] at hlen
      exact pushEvict_full old rest _ hlen
    have holdrest : old ∉ rest := by
      rw [hq] at hnd
      exact (List.nodup_cons.mp hnd).1
    have holdp : old ≠ extraPathOf name := by
      intro he
      apply hfresh
      rw [hq, ← he]
      exact List.mem_cons_self _ _
    rw [takeScreenshot_extra_run s b name hview hb hpng, hpe]
    refine ⟨rfl, rfl, ?_, ?_, ?_⟩
    · rw [hq] at hlen
      simp only [List.length_append, List.length_cons, List.length_nil] at *
      omega
    · intro hmem
      rcases List.mem_append.mp hmem with h | h
      · exact holdrest h
      · exact holdp (List.mem_singleton.mp h)
    · exact (fsWrite_nodup s.files _ hfnd).not_mem_erase

/-- C1 witness: the bound after the empty trace, and one eviction on a full
primary queue (`queue` view) and a full secondary queue (`solutions` view). -/
theorem C1_bounded_queue_eviction_witness :
    ((runOps (initialState View.queue ["screenshots/stale.png"]) []).screenshotQueue.length ≤
        MAX_SCREENSHOTS ∧
     (runOps (initialState View.queue ["screenshots/stale.png"]) []).extraScreenshotQueue.length ≤
        MAX_SCREENSHOTS) ∧
    ((takeScreenshot (HelperState.mk mainFull [] View.queue mainFull)
        (.buf pngSignature) "f" true).result = .ok (mainPathOf "f") ∧
     (takeScreenshot (HelperState.mk mainFull [] View.queue mainFull)
        (.buf pngSignature) "f" true).state.screenshotQueue =
       ["screenshots/b.png", "screenshots/c.png", "screenshots/d.png",
        "screenshots/e.png"] ++ [mainPathOf "f"] ∧
     (takeScreenshot (HelperState.mk mainFull [] View.queue mainFull)
        (.buf pngSignature) "f" true).state.screenshotQueue.length =
       MAX_SCREENSHOTS ∧
     "screenshots/a.png" ∉
       (takeScreenshot (HelperState.mk mainFull [] View.queue mainFull)
         (.buf pngSignature) "f" true).state.screenshotQueue ∧
     "screenshots/a.png" ∉
       (takeScreenshot (HelperState.mk mainFull [] View.queue mainFull)
         (.buf pngSignature) "f" true).state.files) ∧
    ((takeScreenshot (HelperState.mk [] extraFull View.solutions extraFull)
        (.buf pngSignature) "f" true).result = .ok (extraPathOf "f") ∧
     (takeScreenshot (HelperState.mk [] extraFull View.solutions extraFull)
        (.buf pngSignature) "f" true).state.extraScreenshotQueue =
       ["extra_screenshots/b.png", "extra_screenshots/c.png",
        "extra_screenshots/d.png", "extra_screenshots/e.png"] ++
         [extraPathOf "f"] ∧
     (takeScreenshot (HelperState.mk [] extraFull View.solutions extraFull)
        (.buf pngSignature) "f" true).state.extraScreenshotQueue.length =
       MAX_SCREENSHOTS ∧
     "extra_screenshots/a.png" ∉
       (takeScreenshot (HelperState.mk [] extraFull View.solutions extraFull)
         (.buf pngSignature) "f" true).state.extraScreenshotQueue ∧
     "extra_screenshots/a.png" ∉
       (takeScreenshot (HelperState.mk [] extraFull View.solutions extraFull)
         (.buf pngSignature) "f" true).state.files) :=
  ⟨C1_bounded_queue_eviction.1 View.queue ["screenshots/stale.png"] [],
   C1_bounded_queue_eviction.2.1 (HelperState.mk mainFull [] View.queue mainFull)
     pngSignature "f" "screenshots/a.png"
     ["screenshots/b.png", "screenshots/c.png", "screenshots/d.png",
      "screenshots/e.png"]
     rfl (by decide) (by decide) rfl rfl (by decide) (by decide) (by decide),
   C1_bounded_queue_eviction.2.2 (HelperState.mk [] extraFull View.solutions extraFull)
     pngSignature "f" "extra_screenshots/a.png"
     ["extra_screenshots/b.png", "extra_screenshots/c.png",
      "extra_screenshots/d.png", "extra_screenshots/e.png"]
     (by decide) (by decide) (by decide) rfl rfl (by decide) (by decide) (by decide)⟩

/-- C7: `setView` never touches the queues; a successful capture taken in
`queue` view leaves the secondary queue unchanged and appends its returned
path as the new last element of the primary queue; a successful capture
taken in `solutions` or `debug` view leaves the primary queue unchanged and
appends its returned path as the new last element of the secondary queue —
so along any interleaving of mode changes and captures, each capture lands
only in the queue selected by the view current at capture time. -/
theorem C7_mode_isolation :
    (∀ (s : HelperState) (v : View),
      (setView s v).screenshotQueue = s.screenshotQueue ∧
      (setView s v).extraScreenshotQueue = s.extraScreenshotQueue) ∧
    (∀ (s : HelperState) (cap : CaptureOutcome) (name p : String) (w : Bool),
      s.view = View.queue →
      (takeScreenshot s cap name w).result = .ok p →
      (takeScreenshot s cap name w).state.extraScreenshotQueue =
          s.extraScreenshotQueue ∧
      p = mainPathOf name ∧
      (takeScreenshot s cap name w).state.screenshotQueue.getLast? = some p) ∧
    (∀ (s : HelperState) (cap : CaptureOutcome) (name p : String) (w : Bool),
      s.view ≠ View.queue →
      (takeScreenshot s cap name w).result = .ok p →
      (takeScreenshot s cap name w).state.screenshotQueue =
          s.screenshotQueue ∧
      p = extraPathOf name ∧
      (takeScreenshot s cap name w).state.extraScreenshotQueue.getLast? =
        some p) := by
  refine ⟨fun s v => ⟨rfl, rfl⟩, ?_, ?_⟩
  · intro s cap name p w hview hok
    obtain ⟨b, rfl, hb, hpng, rfl⟩ := takeScreenshot_ok_shape s cap name w p hok
    rw [takeScreenshot_queue_run s b name hview hb hpng] at hok ⊢
    have hp : mainPathOf name = p := by simpa using hok
    subst hp
    exact ⟨rfl, rfl, pushEvict_getLast _ _⟩
  · intro s cap name p w hview hok
    obtain ⟨b, rfl, hb, hpng, rfl⟩ := takeScreenshot_ok_shape s cap name w p hok
    rw [takeScreenshot_extra_run s b name hview hb hpng] at hok ⊢
    have hp : extraPathOf name = p := by simpa using hok
    subst hp
    exact ⟨rfl, rfl, pushEvict_getLast _ _⟩

/-- C7 witness: a mode change on a fresh state, one capture in `queue` view
and one in `solutions` view, each from an empty state. -/
theorem C7_mode_isolation_witness :
    ((setView (HelperState.mk [] [] View.queue []) View.debug).screenshotQueue = [] ∧
     (setView (HelperState.mk [] [] View.queue []) View.debug).extraScreenshotQueue = []) ∧
    ((takeScreenshot (HelperState.mk [] [] View.queue [])
        (.buf pngSignature) "a" true).state.extraScreenshotQueue = [] ∧
     mainPathOf "a" = mainPathOf "a" ∧
     (takeScreenshot (HelperState.mk [] [] View.queue [])
        (.buf pngSignature) "a" true).state.screenshotQueue.getLast? =
       some (mainPathOf "a")) ∧
    ((takeScreenshot (HelperState.mk [] [] View.solutions [])
        (.buf pngSignature) "a" true).state.screenshotQueue = [] ∧
     extraPathOf "a" = extraPathOf "a" ∧
     (takeScreenshot (HelperState.mk [] [] View.solutions [])
        (.buf pngSignature) "a" true).state.extraScreenshotQueue.getLast? =
       some (extraPathOf "a")) :=
  ⟨C7_mode_isolation.1 (HelperState.mk [] [] View.queue []) View.debug,
   C7_mode_isolation.2.1 (HelperState.mk [] [] View.queue [])
     (.buf pngSignature) "a" (mainPathOf "a") true rfl rfl,
   C7_mode_isolation.2.2 (HelperState.mk [] [] View.solutions [])
     (.buf pngSignature) "a" (extraPathOf "a") true (by decide) rfl⟩

/-- C10: `takeScreenshot` is atomic with respect to queue state on failure:
whenever it throws (capture failure, empty buffer, invalid PNG, or a failed
artifact write), both queues — indeed the whole state — are exactly as they
were before the call; a path reaches a queue only after the file write
succeeded. -/
theorem C10_failure_atomicity (s : HelperState) (cap : CaptureOutcome)
    (name : String) (w : Bool) (e : String)
    (h : (takeScreenshot s cap name w).result = .error e) :
    (takeScreenshot s cap name w).state.screenshotQueue = s.screenshotQueue ∧
    (takeScreenshot s cap name w).state.extraScreenshotQueue =
      s.extraScreenshotQueue ∧
    (takeScreenshot s cap name w).state = s := by
  have hstate : (takeScreenshot s cap name w).state = s := by
    rcases takeScreenshot_error_state s cap name w with ⟨p, hp⟩ | hs
    · rw [hp] at h
      exact absurd h (by simp)
    · exact hs
  exact ⟨by rw [hstate], by rw [hstate], hstate⟩

/-- C10 witness: the capture primitive throws; the state (and both queues)
are untouched. -/
theorem C10_failure_atomicity_witness :
    (takeScreenshot
        (HelperState.mk ["screenshots/a.png"] [] View.queue ["screenshots/a.png"])
        (CaptureOutcome.fail "boom") "n" true).state.screenshotQueue =
      ["screenshots/a.png"] ∧
    (takeScreenshot
        (HelperState.mk ["screenshots/a.png"] [] View.queue ["screenshots/a.png"])
        (CaptureOutcome.fail "boom") "n" true).state.extraScreenshotQueue = [] ∧
    (takeScreenshot
        (HelperState.mk ["screenshots/a.png"] [] View.queue ["screenshots/a.png"])
        (CaptureOutcome.fail "boom") "n" true).state =
      HelperState.mk ["screenshots/a.png"] [] View.queue ["screenshots/a.png"] :=
  C10_failure_atomicity
    (HelperState.mk ["screenshots/a.png"] [] View.queue ["screenshots/a.png"])
    (CaptureOutcome.fail "boom") "n" true "Failed to capture screenshot: boom" rfl

end Screenshot
